import Mathlib

/-!
Verification of the k8s-mcp-server resource operation gateway
(`src/main.py`, `call_tool`) against its natural-language specification.

The embedding models, faithfully to the Python source:
- the loosely-typed argument bag (absent keys are `none`; Python truthiness
  `if not x` treats the empty string like an absent key);
- the PyYAML entry points used by the source: `yaml.safe_load_all` yields the
  full ordered document sequence, while `yaml.safe_load` yields `None` for an
  empty stream, the document itself for a one-document stream, and raises
  `ComposerError` ("expected a single document in the stream") for a stream of
  two or more documents;
- the typed control-plane clients (`CoreV1Api`, `AppsV1Api`, `create_from_yaml`)
  as calls against a `Cluster` value, with an oracle for mutation outcomes and
  a trace of every control-plane call issued;
- the per-kind result normalization (`result.append({...})` dictionaries) as
  values of a small JSON type `J`; the tool's final `TextContent` is either a
  plain message string or the serialization of such a value.

Documents are modelled as either a falsy value (`YamlDoc.null`, covering
Python `None` and other falsy documents) or a truthy mapping carrying the
`kind`, `metadata.name` and `metadata.namespace` entries the gateway reads;
`none` in those fields models an absent key.
-/

/-- Minimal JSON value type: the shape of what `json.dumps` serializes. -/
inductive J where
  | null : J
  | str (s : String) : J
  | num (n : Int) : J
  | bool (b : Bool) : J
  | arr (xs : List J) : J
  | obj (fs : List (String × J)) : J

/-- Whether a JSON value is an array. -/
def J.isArr : J → Bool
  | J.arr _ => true
  | _ => false

/-- Lookup of a key in a JSON object (first occurrence), `none` otherwise. -/
def jLookup (j : J) (k : String) : Option J :=
  match j with
  | J.obj fs => (fs.find? (fun p => p.1 == k)).map (fun p => p.2)
  | _ => none

/-- Python `None`-or-string rendered into JSON (`None` serializes as null). -/
def jStrOpt : Option String → J
  | none => J.null
  | some s => J.str s

/-- Python `None`-or-int rendered into JSON. -/
def jNatOpt : Option Nat → J
  | none => J.null
  | some n => J.num n

/-- Python string-valued dict (or `None`) rendered into JSON. -/
def jDictOpt : Option (List (String × String)) → J
  | none => J.null
  | some l => J.obj (l.map (fun p => (p.1, J.str p.2)))

/-- One YAML document as the gateway reads it: a falsy document (Python
`None`, or any other falsy value such as `{}`), or a truthy mapping with the
`kind`, `metadata.name` and `metadata.namespace` entries. `none` models an
absent key. -/
inductive YamlDoc where
  | null : YamlDoc
  | map (kind : Option String) (metaName : Option String) (metaNs : Option String) : YamlDoc

/-- Whether the document is the falsy one. -/
def YamlDoc.isNull : YamlDoc → Bool
  | YamlDoc.null => true
  | YamlDoc.map _ _ _ => false

/-- What PyYAML does with a given yaml text: either fail to scan/parse it
(`malformed`, with the exception message) or produce an ordered document
sequence. -/
inductive YamlText where
  | malformed (msg : String) : YamlText
  | docs (ds : List YamlDoc) : YamlText

/-- PyYAML `yaml.safe_load`: `None` for an empty stream, the single document
for a one-document stream, and `ComposerError` for two or more documents. -/
def safeLoad : YamlText → Except String YamlDoc
  | YamlText.malformed m => Except.error m
  | YamlText.docs [] => Except.ok YamlDoc.null
  | YamlText.docs [d] => Except.ok d
  | YamlText.docs (_ :: _ :: _) => Except.error "expected a single document in the stream"

/-- The `yaml_content` argument slot: absent key, present-but-empty string
(falsy, like absent under `if not yaml_content`), or a non-empty string
together with what PyYAML produces for it. -/
inductive YamlArg where
  | absent : YamlArg
  | emptyStr : YamlArg
  | text (t : YamlText) : YamlArg

/-- Python string falsiness: only the empty string is falsy. -/
def pyFalsyStr (s : String) : Bool := s.data.isEmpty

/-- Python `str.lower()`; the source's tokens are ASCII, where this is
exactly per-character lowering. -/
def pyLower (s : String) : String := String.mk (s.data.map Char.toLower)

/-- Prefix test on character lists. -/
def isPre : List Char → List Char → Bool
  | [], _ => true
  | _ :: _, [] => false
  | a :: ps, b :: ls => a == b && isPre ps ls

/-- Python substring containment `needle in hay`, over character lists. -/
def containsSub (needle : List Char) : List Char → Bool
  | [] => needle.isEmpty
  | b :: ls => isPre needle (b :: ls) || containsSub needle ls

/-- Python `s.split(sep)` for a one-character separator, over character
lists; always returns at least one (possibly empty) piece. -/
def splitChar (c : Char) : List Char → List (List Char)
  | [] => [[]]
  | x :: xs =>
    match splitChar c xs with
    | [] => [[]]
    | h :: t => if x == c then [] :: h :: t else (x :: h) :: t

/-- Python truthiness of `arguments.get(key)` for a string-typed argument:
false for an absent key (`None`) and for the empty string. -/
def truthyOpt : Option String → Bool
  | none => false
  | some s => !pyFalsyStr s

/-- Python `a or b` for an optional string `a` with fallback `b`. -/
def pyOr (a : Option String) (b : String) : String :=
  match a with
  | some s => if pyFalsyStr s then b else s
  | none => b

/-- Container status entry (`pod.status.container_statuses[i]`): the fields
the gateway reads. `state` stands for `str(cs.state)`. -/
structure ContainerStatus where
  ready : Bool
  restart_count : Nat
  state : String

/-- Container spec entry (`pod.spec.containers[i]`): the fields read. -/
structure ContainerSpec where
  name : String
  image : String

/-- Condition entry (`.conditions[i]`) as read by get and describe. -/
structure CondR where
  ctype : String
  status : String
  reason : Option String

/-- Node address entry (`node.status.addresses[i]`). -/
structure AddrObj where
  atype : String
  address : String

/-- Pod object as returned by the control plane, restricted to the fields the
gateway reads. Optional fields model attributes the client may return as
`None`. -/
structure PodObj where
  name : String
  metaNs : Option String
  labels : Option (List (String × String))
  annots : Option (List (String × String))
  phase : Option String
  pod_ip : Option String
  node_name : Option String
  containers : List ContainerSpec
  container_statuses : Option (List ContainerStatus)
  conditions : Option (List CondR)

/-- Deployment object, restricted to the fields the gateway reads. -/
structure DepObj where
  name : String
  metaNs : Option String
  labels : Option (List (String × String))
  annots : Option (List (String × String))
  replicas : Option Nat
  ready_replicas : Option Nat
  available_replicas : Option Nat
  updated_replicas : Option Nat
  match_labels : Option (List (String × String))
  strategy : Option String
  conditions : Option (List CondR)

/-- Service port entry; `target_port` stands for `str(p.target_port)`. -/
structure PortObj where
  port : Nat
  protocol : String
  target_port : String

/-- Service object, restricted to the fields the gateway reads. -/
structure SvcObj where
  name : String
  metaNs : Option String
  labels : Option (List (String × String))
  annots : Option (List (String × String))
  svcType : Option String
  cluster_ip : Option String
  external_i_ps : Option (List String)
  ports : Option (List PortObj)
  selector : Option (List (String × String))

/-- Node object, restricted to the fields the gateway reads. `labels` is the
metadata label dict; the get path iterates its keys directly. -/
structure NodeObj where
  name : String
  labels : List (String × String)
  annots : Option (List (String × String))
  capacity : Option (List (String × String))
  allocatable : Option (List (String × String))
  conditions : List CondR
  addresses : List AddrObj
  kubelet_version : String
  os_image : String
  container_runtime_version : String

/-- Namespace object, restricted to the fields the gateway reads.
`creation_ts` stands for `str(ns.metadata.creation_timestamp)`. -/
structure NsObj where
  name : String
  phase : Option String
  creation_ts : String

/-- One control-plane call, as issued by the gateway. `create_from_yaml`
issues one `createFromDict` per non-falsy document. -/
inductive CPCall where
  | createFromDict (d : YamlDoc) (nsp : Option String) : CPCall
  | readPod (name nsp : String) : CPCall
  | listPods (nsp : String) : CPCall
  | readDeployment (name nsp : String) : CPCall
  | listDeployments (nsp : String) : CPCall
  | readService (name nsp : String) : CPCall
  | listServices (nsp : String) : CPCall
  | readNode (name : String) : CPCall
  | listNodes : CPCall
  | readNamespace (name : String) : CPCall
  | listNamespaces : CPCall
  | deletePod (name nsp : String) : CPCall
  | deleteDeployment (name nsp : String) : CPCall
  | deleteService (name nsp : String) : CPCall

/-- The control plane as the gateway sees it: the objects of each kind in
each scope (pods, deployments and services are namespace-scoped; nodes and
namespaces are cluster-scoped), plus an outcome oracle `mutErr` for mutating
calls — `none` means the call succeeds, `some m` means the client raises with
message `m`. -/
structure Cluster where
  pods : String → List PodObj
  deployments : String → List DepObj
  services : String → List SvcObj
  nodes : List NodeObj
  nsList : List NsObj
  mutErr : CPCall → Option String

/-- Message the embedded client raises when a read finds no object. -/
def notFoundMsg : String := "(404) Reason: Not Found"

/-- `v1.read_namespaced_pod(name, namespace)`. -/
def readNamespacedPod (c : Cluster) (nm nsp : String) : Except String PodObj :=
  match (c.pods nsp).find? (fun p => p.name == nm) with
  | some p => Except.ok p
  | none => Except.error notFoundMsg

/-- `apps_v1.read_namespaced_deployment(name, namespace)`. -/
def readNamespacedDeployment (c : Cluster) (nm nsp : String) : Except String DepObj :=
  match (c.deployments nsp).find? (fun d => d.name == nm) with
  | some d => Except.ok d
  | none => Except.error notFoundMsg

/-- `v1.read_namespaced_service(name, namespace)`. -/
def readNamespacedService (c : Cluster) (nm nsp : String) : Except String SvcObj :=
  match (c.services nsp).find? (fun s => s.name == nm) with
  | some s => Except.ok s
  | none => Except.error notFoundMsg

/-- `v1.read_node(name)`. -/
def readNode (c : Cluster) (nm : String) : Except String NodeObj :=
  match c.nodes.find? (fun n => n.name == nm) with
  | some n => Except.ok n
  | none => Except.error notFoundMsg

/-- `v1.read_namespace(name)`. -/
def readNamespace (c : Cluster) (nm : String) : Except String NsObj :=
  match c.nsList.find? (fun n => n.name == nm) with
  | some n => Except.ok n
  | none => Except.error notFoundMsg

/-- Pod ready fraction: `f"{sum(1 for c in (css or []) if c.ready)}/{len(css or [])}"`. -/
def readyFraction (css : Option (List ContainerStatus)) : String :=
  toString ((css.getD []).countP (fun c => c.ready)) ++ "/" ++
    toString (css.getD []).length

/-- Pod restart total: `sum(c.restart_count for c in (css or []))`. -/
def restartsTotal (css : Option (List ContainerStatus)) : Nat :=
  ((css.getD []).map (fun c => c.restart_count)).sum

/-- The get-path pod record; `nsp` is the request namespace (the source uses
the `namespace` variable, not the pod's own metadata, for this field). -/
def podSummary (nsp : String) (p : PodObj) : J :=
  J.obj [("name", J.str p.name),
         ("namespace", J.str nsp),
         ("status", jStrOpt p.phase),
         ("ready", J.str (readyFraction p.container_statuses)),
         ("restarts", J.num (restartsTotal p.container_statuses)),
         ("node", jStrOpt p.node_name)]

/-- Python `f"{x}"` of an optional int: `None` prints as "None". -/
def pyShowOptNat : Option Nat → String
  | some n => toString n
  | none => "None"

/-- The get-path deployment record. -/
def depSummary (nsp : String) (d : DepObj) : J :=
  J.obj [("name", J.str d.name),
         ("namespace", J.str nsp),
         ("ready", J.str (toString (d.ready_replicas.getD 0) ++ "/" ++ pyShowOptNat d.replicas)),
         ("up_to_date", J.num (d.updated_replicas.getD 0)),
         ("available", J.num (d.available_replicas.getD 0))]

/-- `svc.spec.external_i_ps or "none"`: a falsy value (None or empty list)
becomes the string "none". -/
def svcExternalIp : Option (List String) → J
  | none => J.str "none"
  | some [] => J.str "none"
  | some l => J.arr (l.map J.str)

/-- `[f"{p.port}/{p.protocol}" for p in (svc.spec.ports or [])]`. -/
def portStrings (ps : Option (List PortObj)) : List String :=
  (ps.getD []).map (fun p => toString p.port ++ "/" ++ p.protocol)

/-- The get-path service record. -/
def svcSummary (nsp : String) (s : SvcObj) : J :=
  J.obj [("name", J.str s.name),
         ("namespace", J.str nsp),
         ("type", jStrOpt s.svcType),
         ("cluster_ip", jStrOpt s.cluster_ip),
         ("external_ip", svcExternalIp s.external_i_ps),
         ("ports", J.arr ((portStrings s.ports).map J.str))]

/-- Python `needle in hay` substring test. -/
def strContains (hay needle : String) : Bool :=
  containsSub needle.data hay.data

/-- `label.split("/")[1]`: raises `IndexError` when the label has no "/". -/
def labelRole (l : String) : Except String String :=
  match (splitChar '/' l.data).get? 1 with
  | some cs => Except.ok (String.mk cs)
  | none => Except.error "list index out of range"

/-- The Python per-element loop over a list inside a try block: stops at the
first raising element. -/
def exceptMapList {α β : Type} (f : α → Except String β) : List α → Except String (List β)
  | [] => Except.ok []
  | a :: as =>
    match f a with
    | Except.error e => Except.error e
    | Except.ok b =>
      match exceptMapList f as with
      | Except.error e => Except.error e
      | Except.ok bs => Except.ok (b :: bs)

/-- Node roles: `[label.split("/")[1] for label in labels if
"node-role.kubernetes.io" in label] or ["<none>"]`. -/
def nodeRoles (labels : List String) : Except String (List String) :=
  match exceptMapList labelRole
      (labels.filter (fun l => strContains l "node-role.kubernetes.io")) with
  | Except.error e => Except.error e
  | Except.ok rs => Except.ok (if rs.isEmpty then ["<none>"] else rs)

/-- Lookup in the dict comprehension `{c.type: c.status for c in conditions}`:
a later entry with the same type overrides an earlier one. -/
def condLookup (cs : List CondR) (t : String) : Option String :=
  (cs.reverse.find? (fun c => c.ctype == t)).map (fun c => c.status)

/-- The get-path node record. The roles comprehension can raise inside the
dict literal, so the record construction is fallible. -/
def nodeSummary (n : NodeObj) : Except String J :=
  match nodeRoles (n.labels.map (fun p => p.1)) with
  | Except.error e => Except.error e
  | Except.ok roles =>
    Except.ok (J.obj
      [("name", J.str n.name),
       ("status", J.str (if condLookup n.conditions "Ready" = some "True"
                         then "Ready" else "NotReady")),
       ("roles", J.arr (roles.map J.str)),
       ("version", J.str n.kubelet_version),
       ("internal_ip", J.str (((n.addresses.find? (fun a => a.atype == "InternalIP")).map
            (fun a => a.address)).getD ""))])

/-- The get-path namespace record. -/
def nsSummary (n : NsObj) : J :=
  J.obj [("name", J.str n.name),
         ("status", jStrOpt n.phase),
         ("age", J.str n.creation_ts)]

/-- Condition entry as both describe paths render it. -/
def condJ (c : CondR) : J :=
  J.obj [("type", J.str c.ctype), ("status", J.str c.status),
         ("reason", jStrOpt c.reason)]

/-- `zip(pod.spec.containers, pod.status.container_statuses or
[None]*len(pod.spec.containers))`: a falsy status list (`None` or empty)
takes the `or` fallback, pairing every container with `None`; a non-empty
status list is zipped, truncating to the shorter of the two lists. -/
def zipStatuses (cs : List ContainerSpec) (css : Option (List ContainerStatus)) :
    List (ContainerSpec × Option ContainerStatus) :=
  match css with
  | none => cs.map (fun c => (c, none))
  | some [] => cs.map (fun c => (c, none))
  | some l => cs.zip (l.map some)

/-- The describe-path pod record. -/
def podDescription (p : PodObj) : J :=
  J.obj [("name", J.str p.name),
         ("namespace", jStrOpt p.metaNs),
         ("labels", jDictOpt p.labels),
         ("annotations", jDictOpt p.annots),
         ("status", jStrOpt p.phase),
         ("ip", jStrOpt p.pod_ip),
         ("node", jStrOpt p.node_name),
         ("containers", J.arr ((zipStatuses p.containers p.container_statuses).map
           (fun pr => J.obj
             [("name", J.str pr.1.name),
              ("image", J.str pr.1.image),
              ("ready", J.bool (match pr.2 with | some cs => cs.ready | none => false)),
              ("restart_count", J.num (match pr.2 with | some cs => cs.restart_count | none => 0)),
              ("state", J.str (match pr.2 with | some cs => cs.state | none => "unknown"))]))),
         ("conditions", J.arr ((p.conditions.getD []).map condJ)),
         ("events", J.str "Use kubectl get events for pod events")]

/-- The describe-path deployment record. -/
def depDescription (d : DepObj) : J :=
  J.obj [("name", J.str d.name),
         ("namespace", jStrOpt d.metaNs),
         ("labels", jDictOpt d.labels),
         ("annotations", jDictOpt d.annots),
         ("replicas", jNatOpt d.replicas),
         ("ready_replicas", J.num (d.ready_replicas.getD 0)),
         ("available_replicas", J.num (d.available_replicas.getD 0)),
         ("updated_replicas", J.num (d.updated_replicas.getD 0)),
         ("selector", jDictOpt d.match_labels),
         ("strategy", jStrOpt d.strategy),
         ("conditions", J.arr ((d.conditions.getD []).map condJ))]

/-- The describe-path service record. -/
def svcDescription (s : SvcObj) : J :=
  J.obj [("name", J.str s.name),
         ("namespace", jStrOpt s.metaNs),
         ("labels", jDictOpt s.labels),
         ("annotations", jDictOpt s.annots),
         ("type", jStrOpt s.svcType),
         ("cluster_ip", jStrOpt s.cluster_ip),
         ("external_ips", match s.external_i_ps with
                          | none => J.null
                          | some l => J.arr (l.map J.str)),
         ("ports", J.arr ((s.ports.getD []).map (fun p => J.obj
           [("port", J.num p.port), ("protocol", J.str p.protocol),
            ("target_port", J.str p.target_port)]))),
         ("selector", jDictOpt s.selector)]

/-- The describe-path node record. -/
def nodeDescription (n : NodeObj) : J :=
  J.obj [("name", J.str n.name),
         ("labels", jDictOpt (some n.labels)),
         ("annotations", jDictOpt n.annots),
         ("capacity", jDictOpt n.capacity),
         ("allocatable", jDictOpt n.allocatable),
         ("conditions", J.arr (n.conditions.map condJ)),
         ("addresses", J.arr (n.addresses.map (fun a => J.obj
           [("type", J.str a.atype), ("address", J.str a.address)]))),
         ("node_info", J.obj
           [("kubelet_version", J.str n.kubelet_version),
            ("os_image", J.str n.os_image),
            ("container_runtime", J.str n.container_runtime_version)])]

/-- The closed set of supported resource kinds. -/
inductive ResourceKind where
  | pod : ResourceKind
  | deployment : ResourceKind
  | service : ResourceKind
  | node : ResourceKind
  | namespaceKind : ResourceKind
deriving DecidableEq

/-- The alias set each kind owns in the get and describe membership tests. -/
def kindAliases : ResourceKind → List String
  | ResourceKind.pod => ["pod", "pods"]
  | ResourceKind.deployment => ["deployment", "deployments"]
  | ResourceKind.service => ["service", "services", "svc"]
  | ResourceKind.node => ["node", "nodes"]
  | ResourceKind.namespaceKind => ["namespace", "namespaces", "ns"]

/-- Kind resolution as get and describe perform it: lower the token once,
then test membership in each alias list in source order. -/
def resolveKindToken (t : String) : Option ResourceKind :=
  let l := pyLower t
  if l ∈ kindAliases ResourceKind.pod then some ResourceKind.pod
  else if l ∈ kindAliases ResourceKind.deployment then some ResourceKind.deployment
  else if l ∈ kindAliases ResourceKind.service then some ResourceKind.service
  else if l ∈ kindAliases ResourceKind.node then some ResourceKind.node
  else if l ∈ kindAliases ResourceKind.namespaceKind then some ResourceKind.namespaceKind
  else none

/-- The loosely-typed argument bag, restricted to the keys the four tools
read. `nsArg` embeds the "namespace" argument; a missing key is `none`. -/
structure Args where
  yaml_content : YamlArg
  resource_type : Option String
  name : Option String
  nsArg : Option String

/-- What one `TextContent` result carries: a plain message string, or the
`json.dumps` serialization of a JSON value. -/
inductive Payload where
  | msg (s : String) : Payload
  | json (v : J) : Payload

/-- `kubectl_apply`: parse all documents, then hand them to
`utils.create_from_yaml(api_client, yaml_objects=docs, namespace=...)`.
The library dispatches on `if yaml_objects:` — a falsy (empty) document
list takes the final `else: raise ValueError("A valid file path or
yaml_objects must be provided")` before any per-document call. A non-empty
list is submitted with one create call per non-falsy document; per-document
failures are collected and raised together. On success the gateway reports
kind/name from `docs[0]`; a falsy first document makes the `.get` attribute
access raise. Every raise is caught and wrapped in
"Error applying manifest: ". The second component is the trace of
control-plane calls issued. -/
def applyTool (args : Args) (c : Cluster) : Payload × List CPCall :=
  match args.yaml_content with
  | YamlArg.absent => (Payload.msg "Error: yaml_content is required", [])
  | YamlArg.emptyStr => (Payload.msg "Error: yaml_content is required", [])
  | YamlArg.text t =>
    match t with
    | YamlText.malformed m => (Payload.msg ("Error applying manifest: " ++ m), [])
    | YamlText.docs [] =>
      (Payload.msg "Error applying manifest: A valid file path or yaml_objects must be provided",
       [])
    | YamlText.docs (d0 :: rest) =>
      let calls := ((d0 :: rest).filter (fun d => !d.isNull)).map
        (fun d => CPCall.createFromDict d args.nsArg)
      match calls.filterMap c.mutErr with
      | m :: _ => (Payload.msg ("Error applying manifest: " ++ m), calls)
      | [] =>
        match d0 with
        | YamlDoc.null =>
          (Payload.msg "Error applying manifest: 'NoneType' object has no attribute 'get'",
           calls)
        | YamlDoc.map k n _ =>
          (Payload.msg ("Successfully applied " ++ k.getD "unknown" ++ "/" ++ n.getD "unknown"),
           calls)

/-- `kubectl_get`: validate `resource_type` by truthiness, lower it, default
the namespace by `arguments.get("namespace", "default")`, then route. With a
truthy `name` the handler reads one object and appends one record to the
(initially empty) result list; otherwise it lists and appends one record per
object. Either way the payload serializes the result list. -/
def getTool (args : Args) (c : Cluster) : Payload × List CPCall :=
  if !truthyOpt args.resource_type then
    (Payload.msg "Error: resource_type is required", [])
  else
    let rt := pyLower (args.resource_type.getD "")
    let nsp := args.nsArg.getD "default"
    match resolveKindToken (args.resource_type.getD "") with
    | some ResourceKind.pod =>
      if truthyOpt args.name then
        let n := args.name.getD ""
        match readNamespacedPod c n nsp with
        | Except.ok p => (Payload.json (J.arr [podSummary nsp p]), [CPCall.readPod n nsp])
        | Except.error e =>
          (Payload.msg ("Error getting resource: " ++ e), [CPCall.readPod n nsp])
      else
        (Payload.json (J.arr ((c.pods nsp).map (podSummary nsp))), [CPCall.listPods nsp])
    | some ResourceKind.deployment =>
      if truthyOpt args.name then
        let n := args.name.getD ""
        match readNamespacedDeployment c n nsp with
        | Except.ok d =>
          (Payload.json (J.arr [depSummary nsp d]), [CPCall.readDeployment n nsp])
        | Except.error e =>
          (Payload.msg ("Error getting resource: " ++ e), [CPCall.readDeployment n nsp])
      else
        (Payload.json (J.arr ((c.deployments nsp).map (depSummary nsp))),
         [CPCall.listDeployments nsp])
    | some ResourceKind.service =>
      if truthyOpt args.name then
        let n := args.name.getD ""
        match readNamespacedService c n nsp with
        | Except.ok s =>
          (Payload.json (J.arr [svcSummary nsp s]), [CPCall.readService n nsp])
        | Except.error e =>
          (Payload.msg ("Error getting resource: " ++ e), [CPCall.readService n nsp])
      else
        (Payload.json (J.arr ((c.services nsp).map (svcSummary nsp))),
         [CPCall.listServices nsp])
    | some ResourceKind.node =>
      if truthyOpt args.name then
        let n := args.name.getD ""
        match readNode c n with
        | Except.ok node =>
          match nodeSummary node with
          | Except.ok j => (Payload.json (J.arr [j]), [CPCall.readNode n])
          | Except.error e =>
            (Payload.msg ("Error getting resource: " ++ e), [CPCall.readNode n])
        | Except.error e =>
          (Payload.msg ("Error getting resource: " ++ e), [CPCall.readNode n])
      else
        match exceptMapList nodeSummary c.nodes with
        | Except.ok js => (Payload.json (J.arr js), [CPCall.listNodes])
        | Except.error e =>
          (Payload.msg ("Error getting resource: " ++ e), [CPCall.listNodes])
    | some ResourceKind.namespaceKind =>
      if truthyOpt args.name then
        let n := args.name.getD ""
        match readNamespace c n with
        | Except.ok x => (Payload.json (J.arr [nsSummary x]), [CPCall.readNamespace n])
        | Except.error e =>
          (Payload.msg ("Error getting resource: " ++ e), [CPCall.readNamespace n])
      else
        (Payload.json (J.arr (c.nsList.map nsSummary)), [CPCall.listNamespaces])
    | none => (Payload.msg ("Unsupported resource type: " ++ rt), [])

/-- `kubectl_describe`: validate `resource_type` then `name` by truthiness,
lower the type, default the namespace, then route. The describe dispatch has
no namespace branch, so namespace tokens fall through to the unsupported
message like unmatched tokens. -/
def describeTool (args : Args) (c : Cluster) : Payload × List CPCall :=
  if !truthyOpt args.resource_type then
    (Payload.msg "Error: resource_type is required", [])
  else if !truthyOpt args.name then
    (Payload.msg "Error: name is required", [])
  else
    let rt := pyLower (args.resource_type.getD "")
    let nsp := args.nsArg.getD "default"
    let n := args.name.getD ""
    match resolveKindToken (args.resource_type.getD "") with
    | some ResourceKind.pod =>
      match readNamespacedPod c n nsp with
      | Except.ok p => (Payload.json (podDescription p), [CPCall.readPod n nsp])
      | Except.error e =>
        (Payload.msg ("Error describing resource: " ++ e), [CPCall.readPod n nsp])
    | some ResourceKind.deployment =>
      match readNamespacedDeployment c n nsp with
      | Except.ok d => (Payload.json (depDescription d), [CPCall.readDeployment n nsp])
      | Except.error e =>
        (Payload.msg ("Error describing resource: " ++ e), [CPCall.readDeployment n nsp])
    | some ResourceKind.service =>
      match readNamespacedService c n nsp with
      | Except.ok s => (Payload.json (svcDescription s), [CPCall.readService n nsp])
      | Except.error e =>
        (Payload.msg ("Error describing resource: " ++ e), [CPCall.readService n nsp])
    | some ResourceKind.node =>
      match readNode c n with
      | Except.ok node => (Payload.json (nodeDescription node), [CPCall.readNode n])
      | Except.error e =>
        (Payload.msg ("Error describing resource: " ++ e), [CPCall.readNode n])
    | some ResourceKind.namespaceKind =>
      (Payload.msg ("Unsupported resource type: " ++ rt), [])
    | none => (Payload.msg ("Unsupported resource type: " ++ rt), [])

/-- The delete flow after `yaml.safe_load` succeeded on the manifest text:
truthiness checks on the document, the name and the (lowered) kind, namespace
from the explicit argument (`or`-chained) else `metadata.namespace` else
"default", then dispatch on the lowered kind against the three singular
literals. -/
def deleteDoc (argNs : Option String) (d : YamlDoc) (c : Cluster) :
    Payload × List CPCall :=
  match d with
  | YamlDoc.null => (Payload.msg "Error: Invalid YAML content", [])
  | YamlDoc.map k n mns =>
    if !truthyOpt n then
      (Payload.msg "Error: Resource name not found in YAML", [])
    else
      let nm := n.getD ""
      let kind := pyLower (k.getD "")
      if pyFalsyStr kind then
        (Payload.msg "Error: Resource kind not found in YAML", [])
      else
        let rns := pyOr argNs (mns.getD "default")
        if kind == "pod" then
          match c.mutErr (CPCall.deletePod nm rns) with
          | some m => (Payload.msg ("Error deleting resource: " ++ m), [CPCall.deletePod nm rns])
          | none =>
            (Payload.msg ("Successfully deleted " ++ kind ++ "/" ++ nm ++
              " from namespace " ++ rns), [CPCall.deletePod nm rns])
        else if kind == "deployment" then
          match c.mutErr (CPCall.deleteDeployment nm rns) with
          | some m =>
            (Payload.msg ("Error deleting resource: " ++ m), [CPCall.deleteDeployment nm rns])
          | none =>
            (Payload.msg ("Successfully deleted " ++ kind ++ "/" ++ nm ++
              " from namespace " ++ rns), [CPCall.deleteDeployment nm rns])
        else if kind == "service" then
          match c.mutErr (CPCall.deleteService nm rns) with
          | some m =>
            (Payload.msg ("Error deleting resource: " ++ m), [CPCall.deleteService nm rns])
          | none =>
            (Payload.msg ("Successfully deleted " ++ kind ++ "/" ++ nm ++
              " from namespace " ++ rns), [CPCall.deleteService nm rns])
        else
          (Payload.msg ("Generic deletion not fully implemented for " ++ kind), [])

/-- `kubectl_delete`: validate `yaml_content` by truthiness, `safe_load` the
text (a multi-document stream raises there), then run the single-document
flow. A raise from the parser is caught and wrapped in
"Error deleting resource: ". -/
def deleteTool (args : Args) (c : Cluster) : Payload × List CPCall :=
  match args.yaml_content with
  | YamlArg.absent => (Payload.msg "Error: yaml_content is required", [])
  | YamlArg.emptyStr => (Payload.msg "Error: yaml_content is required", [])
  | YamlArg.text t =>
    match safeLoad t with
    | Except.error m => (Payload.msg ("Error deleting resource: " ++ m), [])
    | Except.ok d => deleteDoc args.nsArg d c

/-- The `call_tool` entry point: dispatch on the tool name; a name outside
the four supported operations raises `ValueError`, modelled as the
`Except.error` case. -/
def callTool (tool : String) (args : Args) (c : Cluster) :
    Except String (Payload × List CPCall) :=
  if tool == "kubectl_apply" then Except.ok (applyTool args c)
  else if tool == "kubectl_get" then Except.ok (getTool args c)
  else if tool == "kubectl_describe" then Except.ok (describeTool args c)
  else if tool == "kubectl_delete" then Except.ok (deleteTool args c)
  else Except.error ("Unknown tool: " ++ tool)

/-- Number of objects of a kind in scope: the namespace's objects for the
namespace-scoped kinds, the cluster-wide list for nodes and namespaces. -/
def kindScopeCount (c : Cluster) (k : ResourceKind) (nsp : String) : Nat :=
  match k with
  | ResourceKind.pod => (c.pods nsp).length
  | ResourceKind.deployment => (c.deployments nsp).length
  | ResourceKind.service => (c.services nsp).length
  | ResourceKind.node => c.nodes.length
  | ResourceKind.namespaceKind => c.nsList.length

/-- Fixture: a running pod with two containers, one ready. -/
def podWeb : PodObj :=
  { name := "web", metaNs := some "default", labels := none, annots := none,
    phase := some "Running", pod_ip := none, node_name := some "n1",
    containers := [],
    container_statuses := some [⟨true, 0, "running"⟩, ⟨false, 2, "waiting"⟩],
    conditions := none }

/-- Fixture: a second pod, with no container statuses. -/
def podDb : PodObj :=
  { name := "db", metaNs := some "default", labels := none, annots := none,
    phase := some "Pending", pod_ip := none, node_name := none,
    containers := [], container_statuses := none, conditions := none }

/-- Fixture: a cluster whose "default" namespace holds exactly one pod and
whose mutating calls all succeed. -/
def cluster0 : Cluster :=
  { pods := fun nsp => if nsp == "default" then [podWeb] else [],
    deployments := fun _ => [], services := fun _ => [],
    nodes := [], nsList := [], mutErr := fun _ => none }

/-- Fixture: a cluster whose "default" namespace holds exactly two pods. -/
def cluster2 : Cluster :=
  { pods := fun nsp => if nsp == "default" then [podWeb, podDb] else [],
    deployments := fun _ => [], services := fun _ => [],
    nodes := [], nsList := [], mutErr := fun _ => none }

/-- Fixture: get/describe argument bag naming the pod "web". -/
def argsGetWeb : Args :=
  { yaml_content := YamlArg.absent, resource_type := some "pods",
    name := some "web", nsArg := none }

/-- Fixture: get/describe argument bag with an unmatched, mixed-case token. -/
def argsGetWidget : Args :=
  { yaml_content := YamlArg.absent, resource_type := some "Widget",
    name := some "web", nsArg := none }

/-- Fixture: a manifest document of the given kind naming "web". -/
def ymlPod (k : String) : YamlDoc := YamlDoc.map (some k) (some "web") none

/-- Fixture: apply/delete argument bag whose yaml text parses to `ds`. -/
def argsDel (ds : List YamlDoc) : Args :=
  { yaml_content := YamlArg.text (YamlText.docs ds),
    resource_type := none, name := none, nsArg := none }

/-- Fixture: the empty argument bag (every key absent). -/
def argsNone : Args :=
  { yaml_content := YamlArg.absent, resource_type := none,
    name := none, nsArg := none }

/-- Fixture: get argument bag for listing all pods (no name). -/
def argsGetPods : Args :=
  { yaml_content := YamlArg.absent, resource_type := some "pods",
    name := none, nsArg := none }

/-- Fixture: apply/delete argument bag with `yaml_content` present but "". -/
def argsEmptyYaml : Args :=
  { yaml_content := YamlArg.emptyStr, resource_type := none,
    name := none, nsArg := none }

/-- Fixture: get/describe argument bag with `resource_type` present but "". -/
def argsEmptyRt : Args :=
  { yaml_content := YamlArg.absent, resource_type := some "",
    name := none, nsArg := none }

/-- Fixture: describe argument bag with `name` present but "". -/
def argsEmptyName : Args :=
  { yaml_content := YamlArg.absent, resource_type := some "pods",
    name := some "", nsArg := none }

/-- Helper: a per-element fallible loop that returns `ok` produced exactly
one output per input. -/
theorem exceptMapList_length {α β : Type} (f : α → Except String β) :
    ∀ (l : List α) (bs : List β), exceptMapList f l = Except.ok bs → bs.length = l.length := by
  intro l
  induction l with
  | nil =>
    intro bs h
    simp only [exceptMapList] at h
    cases h
    rfl
  | cons a as ih =>
    intro bs h
    simp only [exceptMapList] at h
    cases hfa : f a with
    | error e => rw [hfa] at h; exact Except.noConfusion h
    | ok b =>
      rw [hfa] at h
      cases hrec : exceptMapList f as with
      | error e => rw [hrec] at h; exact Except.noConfusion h
      | ok bs2 =>
        rw [hrec] at h
        cases h
        simp [ih bs2 hrec]

/-- C2: the claim says a multi-document `yaml_content` makes kubectl_delete
use only the first document. In the code `yaml.safe_load` raises on any
stream of two or more documents, so the two-document manifest below — whose
first document is a perfectly usable Pod manifest that deletes fine on its
own — is rejected outright with the parser's error and no control-plane
call, refuting the claim. -/
theorem C2_counterexample :
    deleteTool (argsDel [ymlPod "Pod", ymlPod "Service"]) cluster0
      = (Payload.msg "Error deleting resource: expected a single document in the stream", []) ∧
    deleteTool (argsDel [ymlPod "Pod"]) cluster0
      = (Payload.msg "Successfully deleted pod/web from namespace default",
         [CPCall.deletePod "web" "default"]) :=
  ⟨rfl, rfl⟩

/-- C2 (amended): kubectl_delete accepts only a single-document manifest —
any stream of two or more documents is rejected with the parser's
"expected a single document in the stream" error and no control-plane call,
whatever the first document contains; for a one-document stream that single
document alone determines the kind, name and namespace of the deletion
(the `deleteDoc` flow), failing if it is unusable. -/
theorem C2_amended (args : Args) (c : Cluster) (d d2 : YamlDoc) (rest : List YamlDoc) :
    (args.yaml_content = YamlArg.text (YamlText.docs (d :: d2 :: rest)) →
      deleteTool args c
        = (Payload.msg "Error deleting resource: expected a single document in the stream", [])) ∧
    (args.yaml_content = YamlArg.text (YamlText.docs [d]) →
      deleteTool args c = deleteDoc args.nsArg d c) := by
  constructor
  · intro h
    simp [deleteTool, h, safeLoad]
  · intro h
    simp [deleteTool, h, safeLoad]

/-- C2 (amended) witness at concrete inputs. -/
theorem C2_amended_witness :
    deleteTool (argsDel [ymlPod "Pod", ymlPod "Service"]) cluster0
      = (Payload.msg "Error deleting resource: expected a single document in the stream", []) ∧
    deleteTool (argsDel [ymlPod "Pod"]) cluster0
      = deleteDoc (argsDel [ymlPod "Pod"]).nsArg (ymlPod "Pod") cluster0 :=
  ⟨(C2_amended (argsDel [ymlPod "Pod", ymlPod "Service"]) cluster0
      (ymlPod "Pod") (ymlPod "Service") []).1 rfl,
   (C2_amended (argsDel [ymlPod "Pod"]) cluster0
      (ymlPod "Pod") (ymlPod "Service") []).2 rfl⟩

/-- C3: a kubectl_apply whose yaml parses to an empty document sequence
returns an error result distinct to the empty manifest — the empty
`yaml_objects` list is falsy, so `create_from_yaml` takes its final
`else: raise ValueError("A valid file path or yaml_objects must be
provided")` before issuing any per-document create call, and the apply
handler wraps that message — with an empty control-plane call trace, so
nothing is submitted to the control plane. -/
theorem C3_empty_manifest (args : Args) (c : Cluster)
    (h : args.yaml_content = YamlArg.text (YamlText.docs [])) :
    applyTool args c
      = (Payload.msg
          "Error applying manifest: A valid file path or yaml_objects must be provided",
         []) := by
  simp [applyTool, h]

/-- C3 witness at a concrete input. -/
theorem C3_empty_manifest_witness :
    applyTool (argsDel []) cluster0
      = (Payload.msg
          "Error applying manifest: A valid file path or yaml_objects must be provided",
         []) :=
  C3_empty_manifest (argsDel []) cluster0 rfl

/-- C4: the claim says the unsupported-type error reproduces the caller's
token verbatim. The code lowercases the token first, so the mixed-case
unmatched token "Widget" is echoed as "widget", not "Widget". -/
theorem C4_counterexample :
    (getTool argsGetWidget cluster0).1 = Payload.msg "Unsupported resource type: widget" ∧
    "Unsupported resource type: widget" ≠ "Unsupported resource type: Widget" :=
  ⟨rfl, by decide⟩

/-- C4 (amended): for kubectl_get and kubectl_describe, a resource_type
token matching no supported kind alias yields exactly
"Unsupported resource type: " followed by the lowercased caller token, with
no control-plane call; the token is reproduced verbatim only when it is
already lowercase. -/
theorem C4_amended (args : Args) (c : Cluster)
    (hrt : truthyOpt args.resource_type = true)
    (hres : resolveKindToken (args.resource_type.getD "") = none) :
    getTool args c
      = (Payload.msg ("Unsupported resource type: " ++ pyLower (args.resource_type.getD "")), []) ∧
    (truthyOpt args.name = true →
      describeTool args c
        = (Payload.msg ("Unsupported resource type: " ++ pyLower (args.resource_type.getD "")), [])) := by
  constructor
  · simp [getTool, hrt, hres]
  · intro hn
    simp [describeTool, hrt, hn, hres]

/-- C4 (amended) witness at a concrete input. -/
theorem C4_amended_witness :
    getTool argsGetWidget cluster0 = (Payload.msg "Unsupported resource type: widget", []) ∧
    describeTool argsGetWidget cluster0 = (Payload.msg "Unsupported resource type: widget", []) :=
  ⟨(C4_amended argsGetWidget cluster0 rfl rfl).1,
   (C4_amended argsGetWidget cluster0 rfl rfl).2 rfl⟩

/-- C5: every invocation of one of the four supported operations, with any
argument bag and any cluster, returns a text result through the gateway's
`Except.ok`; the raising branch of `call_tool` is reached only by unknown
tool names. -/
theorem C5_no_raise (tool : String) (args : Args) (c : Cluster)
    (h : tool ∈ (["kubectl_apply", "kubectl_get", "kubectl_describe",
                  "kubectl_delete"] : List String)) :
    ∃ out : Payload × List CPCall, callTool tool args c = Except.ok out := by
  simp only [List.mem_cons, List.not_mem_nil, or_false] at h
  rcases h with rfl | rfl | rfl | rfl
  · exact ⟨applyTool args c, rfl⟩
  · exact ⟨getTool args c, rfl⟩
  · exact ⟨describeTool args c, rfl⟩
  · exact ⟨deleteTool args c, rfl⟩

/-- C5 witness at a concrete input. -/
theorem C5_no_raise_witness :
    ∃ out : Payload × List CPCall,
      callTool "kubectl_get" argsGetWeb cluster0 = Except.ok out :=
  C5_no_raise "kubectl_get" argsGetWeb cluster0 (by decide)

/-- C6: the claim says the alias sets (e.g. pods for Pod) apply uniformly to
every operation, including the kind taken from the delete manifest. The
alias "Pods" does resolve to Pod for get/describe, but a delete manifest
with kind "Pods" falls to the generic-deletion message with no delete call,
while the singular "POD" deletes — delete matches only the singular names. -/
theorem C6_counterexample :
    resolveKindToken "Pods" = some ResourceKind.pod ∧
    deleteTool (argsDel [ymlPod "Pods"]) cluster0
      = (Payload.msg "Generic deletion not fully implemented for pods", []) ∧
    deleteTool (argsDel [ymlPod "POD"]) cluster0
      = (Payload.msg "Successfully deleted pod/web from namespace default",
         [CPCall.deletePod "web" "default"]) :=
  ⟨rfl, rfl, rfl⟩

/-- C6 (amended): kind resolution is case-insensitive in every operation,
and get/describe resolve over the full alias sets (Pod, pods, POD all give
the Pod handler, and likewise for the other kinds); delete, however,
matches its manifest kind case-insensitively against only the singular
names pod, deployment, service — a token like "pods" is not delete-capable
and falls to the generic-deletion message with no control-plane call. -/
theorem C6_amended :
    (∀ t u : String, pyLower t = pyLower u → resolveKindToken t = resolveKindToken u) ∧
    resolveKindToken "Pod" = some ResourceKind.pod ∧
    resolveKindToken "pods" = some ResourceKind.pod ∧
    resolveKindToken "POD" = some ResourceKind.pod ∧
    resolveKindToken "Deployments" = some ResourceKind.deployment ∧
    resolveKindToken "SVC" = some ResourceKind.service ∧
    resolveKindToken "Nodes" = some ResourceKind.node ∧
    resolveKindToken "ns" = some ResourceKind.namespaceKind ∧
    (∀ (c : Cluster) (argNs mns : Option String) (nm : Option String) (k u : String),
      pyLower k = pyLower u →
      deleteDoc argNs (YamlDoc.map (some k) nm mns) c
        = deleteDoc argNs (YamlDoc.map (some u) nm mns) c) ∧
    (∀ (c : Cluster) (argNs mns : Option String) (nm : String), pyFalsyStr nm = false →
      (deleteDoc argNs (YamlDoc.map (some "Pod") (some nm) mns) c).2
        = [CPCall.deletePod nm (pyOr argNs (mns.getD "default"))]) ∧
    (∀ (c : Cluster) (argNs mns : Option String) (nm : String), pyFalsyStr nm = false →
      deleteDoc argNs (YamlDoc.map (some "pods") (some nm) mns) c
        = (Payload.msg "Generic deletion not fully implemented for pods", [])) := by
  refine ⟨?_, rfl, rfl, rfl, rfl, rfl, rfl, rfl, ?_, ?_, ?_⟩
  · intro t u h
    simp only [resolveKindToken, h]
  · intro c argNs mns nm k u h
    simp only [deleteDoc, Option.getD, h]
  · intro c argNs mns nm h
    have e1 : pyLower "Pod" = "pod" := rfl
    have e2 : pyFalsyStr "pod" = false := rfl
    cases hc : c.mutErr (CPCall.deletePod nm (pyOr argNs (mns.getD "default"))) with
    | none => simp [deleteDoc, truthyOpt, h, hc, e1, e2]
    | some m => simp [deleteDoc, truthyOpt, h, hc, e1, e2]
  · intro c argNs mns nm h
    have e1 : pyLower "pods" = "pods" := rfl
    have e2 : pyFalsyStr "pods" = false := rfl
    simp [deleteDoc, truthyOpt, h, e1, e2]

/-- C6 (amended) witness at concrete inputs. -/
theorem C6_amended_witness :
    resolveKindToken "pOD" = resolveKindToken "PoD" ∧
    resolveKindToken "Pod" = some ResourceKind.pod ∧
    (deleteDoc none (YamlDoc.map (some "Pod") (some "web") none) cluster0).2
      = [CPCall.deletePod "web" "default"] ∧
    deleteDoc none (YamlDoc.map (some "pods") (some "web") none) cluster0
      = (Payload.msg "Generic deletion not fully implemented for pods", []) :=
  ⟨C6_amended.1 "pOD" "PoD" rfl,
   C6_amended.2.1,
   C6_amended.2.2.2.2.2.2.2.2.2.1 cluster0 none none "web" rfl,
   C6_amended.2.2.2.2.2.2.2.2.2.2 cluster0 none none "web" rfl⟩

/-- C7: for each operation, an absent required argument (yaml_content for
apply/delete, resource_type for get/describe, name for describe) produces
the immediate validation-error text and an empty control-plane call trace. -/
theorem C7_missing_required (args : Args) (c : Cluster) :
    (args.yaml_content = YamlArg.absent →
      applyTool args c = (Payload.msg "Error: yaml_content is required", []) ∧
      deleteTool args c = (Payload.msg "Error: yaml_content is required", [])) ∧
    (args.resource_type = none →
      getTool args c = (Payload.msg "Error: resource_type is required", []) ∧
      describeTool args c = (Payload.msg "Error: resource_type is required", [])) ∧
    (truthyOpt args.resource_type = true → args.name = none →
      describeTool args c = (Payload.msg "Error: name is required", [])) := by
  refine ⟨fun h => ⟨?_, ?_⟩, fun h => ⟨?_, ?_⟩, fun h1 h2 => ?_⟩
  · simp [applyTool, h]
  · simp [deleteTool, h]
  · simp [getTool, h, truthyOpt]
  · simp [describeTool, h, truthyOpt]
  · have ht : truthyOpt args.name = false := by rw [h2]; rfl
    simp [describeTool, h1, ht]

/-- C7 witness at concrete inputs. -/
theorem C7_missing_required_witness :
    applyTool argsNone cluster0 = (Payload.msg "Error: yaml_content is required", []) ∧
    getTool argsNone cluster0 = (Payload.msg "Error: resource_type is required", []) ∧
    describeTool argsGetPods cluster0 = (Payload.msg "Error: name is required", []) :=
  ⟨((C7_missing_required argsNone cluster0).1 rfl).1,
   ((C7_missing_required argsNone cluster0).2.1 rfl).1,
   (C7_missing_required argsGetPods cluster0).2.2 rfl rfl⟩

/-- C9: a kubectl_delete whose single manifest document has a truthy name
and a truthy kind whose lowercase form is not pod, deployment or service
(so Node, Namespace, or anything else) returns exactly
"Generic deletion not fully implemented for " followed by the lowercased
kind, and issues no control-plane call. -/
theorem C9_generic_deletion (args : Args) (c : Cluster) (k nm : String) (mns : Option String)
    (hy : args.yaml_content = YamlArg.text (YamlText.docs [YamlDoc.map (some k) (some nm) mns]))
    (hnm : pyFalsyStr nm = false)
    (hk : pyFalsyStr (pyLower k) = false)
    (hnot : pyLower k ∉ (["pod", "deployment", "service"] : List String)) :
    deleteTool args c
      = (Payload.msg ("Generic deletion not fully implemented for " ++ pyLower k), []) := by
  simp only [List.mem_cons, List.not_mem_nil, or_false, not_or] at hnot
  obtain ⟨hp, hd, hs⟩ := hnot
  have hp2 : (pyLower k == "pod") = false := beq_eq_false_iff_ne.mpr hp
  have hd2 : (pyLower k == "deployment") = false := beq_eq_false_iff_ne.mpr hd
  have hs2 : (pyLower k == "service") = false := beq_eq_false_iff_ne.mpr hs
  simp [deleteTool, hy, safeLoad, deleteDoc, truthyOpt, hnm, hk, hp2, hd2, hs2]

/-- C9 witness: deleting a Node manifest. -/
theorem C9_generic_deletion_witness :
    deleteTool (argsDel [YamlDoc.map (some "Node") (some "n1") none]) cluster0
      = (Payload.msg "Generic deletion not fully implemented for node", []) :=
  C9_generic_deletion (argsDel [YamlDoc.map (some "Node") (some "n1") none]) cluster0
    "Node" "n1" none rfl rfl rfl (by decide)

/-- C10: a required argument that is present but equal to the empty string
is treated exactly like an absent one — the same validation-error text, and
no control-plane call — because presence is tested by Python truthiness. -/
theorem C10_empty_is_absent (args : Args) (c : Cluster) :
    (args.yaml_content = YamlArg.emptyStr →
      applyTool args c = (Payload.msg "Error: yaml_content is required", []) ∧
      deleteTool args c = (Payload.msg "Error: yaml_content is required", [])) ∧
    (args.resource_type = some "" →
      getTool args c = (Payload.msg "Error: resource_type is required", []) ∧
      describeTool args c = (Payload.msg "Error: resource_type is required", [])) ∧
    (truthyOpt args.resource_type = true → args.name = some "" →
      describeTool args c = (Payload.msg "Error: name is required", [])) := by
  refine ⟨fun h => ⟨?_, ?_⟩, fun h => ⟨?_, ?_⟩, fun h1 h2 => ?_⟩
  · simp [applyTool, h]
  · simp [deleteTool, h]
  · have ht : truthyOpt args.resource_type = false := by rw [h]; rfl
    simp [getTool, ht]
  · have ht : truthyOpt args.resource_type = false := by rw [h]; rfl
    simp [describeTool, ht]
  · have ht : truthyOpt args.name = false := by rw [h2]; rfl
    simp [describeTool, h1, ht]

/-- C10 witness at concrete inputs. -/
theorem C10_empty_is_absent_witness :
    applyTool argsEmptyYaml cluster0 = (Payload.msg "Error: yaml_content is required", []) ∧
    getTool argsEmptyRt cluster0 = (Payload.msg "Error: resource_type is required", []) ∧
    describeTool argsEmptyName cluster0 = (Payload.msg "Error: name is required", []) :=
  ⟨((C10_empty_is_absent argsEmptyYaml cluster0).1 rfl).1,
   ((C10_empty_is_absent argsEmptyRt cluster0).2.1 rfl).1,
   (C10_empty_is_absent argsEmptyName cluster0).2.2 rfl rfl⟩

/-- C8: the pod summary renders the ready field as exactly "1/2" for a pod
whose status lists two container statuses with exactly one ready, and as
exactly "0/0" when the container statuses are absent — the absent case is a
literal string, not a division error. -/
theorem C8_ready_fraction (nsp : String) (p : PodObj) (css : List ContainerStatus)
    (h2 : css.length = 2) (h1 : css.countP (fun c => c.ready) = 1) :
    (p.container_statuses = some css →
      jLookup (podSummary nsp p) "ready" = some (J.str "1/2")) ∧
    (p.container_statuses = none →
      jLookup (podSummary nsp p) "ready" = some (J.str "0/0")) := by
  have base : jLookup (podSummary nsp p) "ready"
      = some (J.str (readyFraction p.container_statuses)) := rfl
  constructor
  · intro hcs
    rw [base, hcs]
    have e : readyFraction (some css) = "1/2" := by
      simp only [readyFraction, Option.getD_some]
      rw [h1, h2]
      rfl
    rw [e]
  · intro hcs
    rw [base, hcs]
    rfl

/-- C8 witness: the fixture pods. -/
theorem C8_ready_fraction_witness :
    jLookup (podSummary "default" podWeb) "ready" = some (J.str "1/2") ∧
    jLookup (podSummary "default" podDb) "ready" = some (J.str "0/0") :=
  ⟨(C8_ready_fraction "default" podWeb
      [⟨true, 0, "running"⟩, ⟨false, 2, "waiting"⟩] rfl rfl).1 rfl,
   (C8_ready_fraction "default" podDb
      [⟨true, 0, "running"⟩, ⟨false, 2, "waiting"⟩] rfl rfl).2 rfl⟩

/-- C1: the claim says kubectl_get with a name returns a single object, not
an array. The code appends the single summary to the (initially empty)
result list and serializes that list, so a successful get of the pod "web"
by name yields a JSON array (of length one). -/
theorem C1_counterexample :
    (getTool argsGetWeb cluster0).1 = Payload.json (J.arr [podSummary "default" podWeb]) ∧
    (J.arr [podSummary "default" podWeb]).isArr = true :=
  ⟨rfl, rfl⟩

/-- C1 (amended): every successful kubectl_get payload — with or without a
name — is a JSON array: with a truthy name it has exactly one element (the
single summary, wrapped in the result list), and without a name it has one
element per object of the resolved kind in scope. -/
theorem C1_amended (args : Args) (c : Cluster) (v : J)
    (h : (getTool args c).1 = Payload.json v) :
    ∃ (xs : List J) (k : ResourceKind),
      v = J.arr xs ∧
      resolveKindToken (args.resource_type.getD "") = some k ∧
      (if truthyOpt args.name = true then xs.length = 1
       else xs.length = kindScopeCount c k (args.nsArg.getD "default")) := by
  cases hrt : truthyOpt args.resource_type with
  | false => simp [getTool, hrt] at h
  | true =>
    cases hres : resolveKindToken (args.resource_type.getD "") with
    | none => simp [getTool, hrt, hres] at h
    | some k =>
      cases k with
      | pod =>
        cases hnm : truthyOpt args.name with
        | true =>
          cases hread : readNamespacedPod c (args.name.getD "") (args.nsArg.getD "default") with
          | error e => simp [getTool, hrt, hres, hnm, hread] at h
          | ok p =>
            refine ⟨[podSummary (args.nsArg.getD "default") p], ResourceKind.pod,
              ?_, rfl, ?_⟩
            · simp [getTool, hrt, hres, hnm, hread] at h
              exact h.symm
            · simp [hnm]
        | false =>
          refine ⟨(c.pods (args.nsArg.getD "default")).map
              (podSummary (args.nsArg.getD "default")), ResourceKind.pod, ?_, rfl, ?_⟩
          · simp [getTool, hrt, hres, hnm] at h
            exact h.symm
          · simp [hnm, kindScopeCount]
      | deployment =>
        cases hnm : truthyOpt args.name with
        | true =>
          cases hread : readNamespacedDeployment c (args.name.getD "")
              (args.nsArg.getD "default") with
          | error e => simp [getTool, hrt, hres, hnm, hread] at h
          | ok d =>
            refine ⟨[depSummary (args.nsArg.getD "default") d], ResourceKind.deployment,
              ?_, rfl, ?_⟩
            · simp [getTool, hrt, hres, hnm, hread] at h
              exact h.symm
            · simp [hnm]
        | false =>
          refine ⟨(c.deployments (args.nsArg.getD "default")).map
              (depSummary (args.nsArg.getD "default")), ResourceKind.deployment, ?_, rfl, ?_⟩
          · simp [getTool, hrt, hres, hnm] at h
            exact h.symm
          · simp [hnm, kindScopeCount]
      | service =>
        cases hnm : truthyOpt args.name with
        | true =>
          cases hread : readNamespacedService c (args.name.getD "")
              (args.nsArg.getD "default") with
          | error e => simp [getTool, hrt, hres, hnm, hread] at h
          | ok s =>
            refine ⟨[svcSummary (args.nsArg.getD "default") s], ResourceKind.service,
              ?_, rfl, ?_⟩
            · simp [getTool, hrt, hres, hnm, hread] at h
              exact h.symm
            · simp [hnm]
        | false =>
          refine ⟨(c.services (args.nsArg.getD "default")).map
              (svcSummary (args.nsArg.getD "default")), ResourceKind.service, ?_, rfl, ?_⟩
          · simp [getTool, hrt, hres, hnm] at h
            exact h.symm
          · simp [hnm, kindScopeCount]
      | node =>
        cases hnm : truthyOpt args.name with
        | true =>
          cases hread : readNode c (args.name.getD "") with
          | error e => simp [getTool, hrt, hres, hnm, hread] at h
          | ok node =>
            cases hsum : nodeSummary node with
            | error e => simp [getTool, hrt, hres, hnm, hread, hsum] at h
            | ok j =>
              refine ⟨[j], ResourceKind.node, ?_, rfl, ?_⟩
              · simp [getTool, hrt, hres, hnm, hread, hsum] at h
                exact h.symm
              · simp [hnm]
        | false =>
          cases hmap : exceptMapList nodeSummary c.nodes with
          | error e => simp [getTool, hrt, hres, hnm, hmap] at h
          | ok js =>
            refine ⟨js, ResourceKind.node, ?_, rfl, ?_⟩
            · simp [getTool, hrt, hres, hnm, hmap] at h
              exact h.symm
            · simp [hnm, kindScopeCount, exceptMapList_length nodeSummary c.nodes js hmap]
      | namespaceKind =>
        cases hnm : truthyOpt args.name with
        | true =>
          cases hread : readNamespace c (args.name.getD "") with
          | error e => simp [getTool, hrt, hres, hnm, hread] at h
          | ok x =>
            refine ⟨[nsSummary x], ResourceKind.namespaceKind, ?_, rfl, ?_⟩
            · simp [getTool, hrt, hres, hnm, hread] at h
              exact h.symm
            · simp [hnm]
        | false =>
          refine ⟨c.nsList.map nsSummary, ResourceKind.namespaceKind, ?_, rfl, ?_⟩
          · simp [getTool, hrt, hres, hnm] at h
            exact h.symm
          · simp [hnm, kindScopeCount]

/-- C1 (amended) witness: get with a name yields a length-one array; get
without a name on a two-pod namespace yields a length-two array. -/
theorem C1_amended_witness :
    (∃ (xs : List J) (k : ResourceKind),
      J.arr [podSummary "default" podWeb] = J.arr xs ∧
      resolveKindToken (argsGetWeb.resource_type.getD "") = some k ∧
      (if truthyOpt argsGetWeb.name = true then xs.length = 1
       else xs.length = kindScopeCount cluster0 k (argsGetWeb.nsArg.getD "default"))) ∧
    (∃ (xs : List J) (k : ResourceKind),
      J.arr [podSummary "default" podWeb, podSummary "default" podDb] = J.arr xs ∧
      resolveKindToken (argsGetPods.resource_type.getD "") = some k ∧
      (if truthyOpt argsGetPods.name = true then xs.length = 1
       else xs.length = kindScopeCount cluster2 k (argsGetPods.nsArg.getD "default"))) :=
  ⟨C1_amended argsGetWeb cluster0 (J.arr [podSummary "default" podWeb]) rfl,
   C1_amended argsGetPods cluster2
     (J.arr [podSummary "default" podWeb, podSummary "default" podDb]) rfl⟩
